import Mathlib

/-!
Verification of `tiled/server/authentication.py`.

Shallow embedding conventions:

* Timestamps and durations are rationals (`Rat`), measured in seconds, standing
  for the POSIX-timestamp floats (`datetime.utcnow()`, `.timestamp()`,
  `timedelta`) of the source.  `datetime.fromtimestamp(ts).timestamp() = ts`, so
  the round trip through `datetime` objects is the identity here.
* A JWT is modelled as its decoded claim set together with the secret key that
  signed it; `jose.jwt.encode` is pairing, and `jose.jwt.decode` verifies the
  signature first (mismatch raises `JWTError`) and only then validates the
  `exp` claim (raising `ExpiredSignatureError` when `exp < now`, zero leeway),
  which is exactly python-jose behaviour with algorithm HS256 fixed.
* Python dict payloads are modelled by a structure with one `Option` field per
  claim that the module reads or writes (`sub`, `type`, `exp`, `iat`, `sid`,
  `sct`).  `payload.get(k)` is the `Option` itself; `payload[k]` on a missing
  key is the error `Err.keyError k` (an uncaught Python `KeyError`).
* `HTTPException(status_code, detail)` is `Err.http status detail` (the
  `WWW-Authenticate` headers play no role in any claim and are dropped);
  `settings.secret_keys[0]` on an empty list is `Err.indexError`.
* Randomness (`uuid.uuid4().int`) and the clock (`datetime.utcnow()`) are
  explicit arguments of the functions that use them.
-/

/-- Errors a request handler can produce: an `HTTPException` with a status code
and a detail string, or an uncaught Python exception (`KeyError` on a missing
dict key, `IndexError` on indexing an empty list). -/
inductive Err where
  | http (status : Nat) (detail : String)
  | keyError (key : String)
  | indexError (what : String)
deriving DecidableEq

/-- The claim set of a token, one `Option` field per claim the module uses.
`typ` models the `"type"` claim (`type` is reserved in Lean). -/
structure Payload where
  sub : Option String
  typ : Option String
  exp : Option Rat
  iat : Option Rat
  sid : Option Nat
  sct : Option Rat
deriving DecidableEq

/-- A signed token: the claims plus the secret key that signed it.  Signature
verification with key `k` succeeds exactly when `k` is that key. -/
structure JWT where
  payload : Payload
  key : String
deriving DecidableEq

/-- `jose.jwt.encode(claims, secret_key, algorithm="HS256")`. -/
def jwt_encode (payload : Payload) (secret_key : String) : JWT :=
  ⟨payload, secret_key⟩

/-- Outcome of one `jose.jwt.decode` call: success, `ExpiredSignatureError`,
or any other `JWTError` (in particular a signature-verification failure). -/
inductive JoseResult where
  | ok (payload : Payload)
  | expiredSignature
  | jwtError
deriving DecidableEq

/-- `jose.jwt.decode(token, key, algorithms=["HS256"])`: the signature is
verified first (mismatch is `JWTError`), then the `exp` claim, when present,
is compared against the clock (`exp < now` is `ExpiredSignatureError`,
zero leeway). -/
def jwt_decode (t : JWT) (key : String) (now : Rat) : JoseResult :=
  if t.key = key then
    match t.payload.exp with
    | some e => if e < now then .expiredSignature else .ok t.payload
    | none => .ok t.payload
  else .jwtError

/-- The `credentials_exception` of `decode_token`
(authentication.py lines 95-99, headers dropped). -/
def credentials_exception : Err :=
  .http 401 "Could not validate credentials"

/-- The `for secret_key in secret_keys` loop of `decode_token`
(authentication.py lines 103-113): each key is tried in order; success breaks
out of the loop, `ExpiredSignatureError` raises 401 "Access token has
expired." at once, any other `JWTError` moves on to the next key, and the
`for`/`else` raises `credentials_exception` when every key failed. -/
def decode_token_loop (t : JWT) (now : Rat) : List String → Except Err Payload
  | [] => .error credentials_exception
  | k :: rest =>
    match jwt_decode t k now with
    | .ok p => .ok p
    | .expiredSignature => .error (.http 401 "Access token has expired.")
    | .jwtError => decode_token_loop t now rest

/-- `decode_token(token, secret_keys, expected_type)`
(authentication.py lines 94-116): run the key loop, then require
`payload.get("type") == expected_type`, else raise `credentials_exception`. -/
def decode_token (t : JWT) (secret_keys : List String) (expected_type : String)
    (now : Rat) : Except Err Payload :=
  match decode_token_loop t now secret_keys with
  | .error e => .error e
  | .ok payload =>
    if payload.typ ≠ some expected_type then .error credentials_exception
    else .ok payload

/-- The configuration surface the module reads from `get_settings()`. -/
structure Settings where
  secret_keys : List String
  access_token_max_age : Rat
  refresh_token_max_age : Rat
  session_max_age : Option Rat
  allow_anonymous_access : Bool
  single_user_api_key : Option String
deriving DecidableEq

/-- `create_access_token(data, expires_delta, secret_key)`
(authentication.py lines 60-65).  Both call sites pass `data = {"sub":
username}`, so `data` is modelled by the username; the function adds
`exp = now + expires_delta` and `type = "access"`. -/
def create_access_token (sub : String) (expires_delta : Rat) (secret_key : String)
    (now : Rat) : JWT :=
  jwt_encode
    { sub := some sub, typ := some "access", exp := some (now + expires_delta),
      iat := none, sid := none, sct := none }
    secret_key

/-- `create_refresh_token(data, secret_key, session_id, session_creation_time)`
(authentication.py lines 68-91).  Both call sites pass `data = {"sub":
username}`.  `session_id = session_id or uuid.uuid4().int` uses Python
truthiness: `None` and `0` are both replaced by the fresh UUID integer
`freshSid` (a version-4 UUID has its version bits set, so a real
`uuid.uuid4().int` is never `0`).  `session_creation_time or issued_at_time`
only replaces `None`, because `datetime` objects are always truthy.  The token
carries no `exp` claim; `iat` and `sct` are stored as timestamps. -/
def create_refresh_token (sub : String) (secret_key : String)
    (session_id : Option Nat) (session_creation_time : Option Rat)
    (now : Rat) (freshSid : Nat) : JWT :=
  jwt_encode
    { sub := some sub, typ := some "refresh", exp := none, iat := some now,
      sid := some (match session_id with
        | some s => if s = 0 then freshSid else s
        | none => freshSid),
      sct := some (session_creation_time.getD now) }
    secret_key

/-- The cookie name `API_KEY_COOKIE_NAME` (authentication.py line 31). -/
def API_KEY_COOKIE_NAME : String := "tiled_api_key"

/-- `check_single_user_api_key`s loop body over `[api_key_query,
api_key_header, api_key_cookie]` (authentication.py lines 125-130): skip
absent values; the first present value returns `True` when it equals
`settings.single_user_api_key` and raises 401 "Invalid API key" otherwise;
if all are absent, return `False`. -/
def check_api_key_list (s : Settings) : List (Option String) → Except Err Bool
  | [] => .ok false
  | none :: rest => check_api_key_list s rest
  | some v :: _ =>
    if (some v : Option String) = s.single_user_api_key then .ok true
    else .error (.http 401 "Invalid API key")

/-- `check_single_user_api_key(api_key_query, api_key_header, api_key_cookie,
settings)` (authentication.py lines 119-130). -/
def check_single_user_api_key (q h c : Option String) (s : Settings) :
    Except Err Bool :=
  check_api_key_list s [q, h, c]

/-- Modelled from the spec: the resolved principal.  The source returns
`SpecialUsers.admin`, `SpecialUsers.public` (from `tiled/utils.py`, which is
not part of the verified sources) or `payload.get("sub")`; spec section 3
describes the three forms as a closed tagged union Admin / Public /
Named(username), never conflated with an ordinary username string.  `named`
carries `Option String` because `payload.get("sub")` can be absent. -/
inductive Principal where
  | admin
  | public
  | named (username : Option String)
deriving DecidableEq

/-- An authenticator capability: `authenticator.authenticate(username,
password)` returns the confirmed username or a falsy value (`None`, modelled
`none`, or the empty string). -/
def Authenticator : Type := String → String → Option String

/-- `get_current_user(request, token, has_single_user_api_key, settings,
authenticator)` (authentication.py lines 133-158).  The dependency
`check_single_user_api_key` runs first and its `HTTPException` aborts the
request.  The result pairs the principal with `request.state.cookies_to_set`.
The `api_key_cookie` security channel and `request.cookies.get(
API_KEY_COOKIE_NAME)` read the same cookie, so both are the argument `c`;
the appended cookie value is `settings.single_user_api_key` itself. -/
def get_current_user (token : Option JWT) (q h c : Option String)
    (s : Settings) (authenticator : Option Authenticator) (now : Rat) :
    Except Err (Principal × List (String × Option String)) :=
  match check_single_user_api_key q h c s with
  | .error e => .error e
  | .ok has_single_user_api_key =>
    if authenticator.isNone ∧ has_single_user_api_key then
      .ok (.admin,
        if c ≠ s.single_user_api_key then [(API_KEY_COOKIE_NAME, s.single_user_api_key)]
        else [])
    else
      match token with
      | none =>
        if s.allow_anonymous_access then .ok (.public, [])
        else .error (.http 401 "Not authenticated")
      | some tk =>
        match decode_token tk s.secret_keys "access" now with
        | .error e => .error e
        | .ok payload => .ok (.named payload.sub, [])

/-- The response dict of `login_for_access_token` and `refresh`
(authentication.py lines 195-201 and 236-242).  `expires_in` values are the
max ages divided by `UNIT_SECOND`, i.e. expressed in seconds, which is the
identity under the seconds-valued `Rat` model. -/
structure TokenResponse where
  access_token : JWT
  expires_in : Rat
  refresh_token : JWT
  refresh_token_expires_in : Rat
  token_type : String
deriving DecidableEq

/-- `login_for_access_token(response, form_data, authenticator, settings)`
(authentication.py lines 161-201).  `if not username` treats both `None` and
the empty string as failure.  Encoding uses `settings.secret_keys[0]`. -/
def login_for_access_token (username password : String)
    (authenticator : Option Authenticator) (s : Settings) (now : Rat)
    (freshSid : Nat) : Except Err TokenResponse :=
  match authenticator with
  | none =>
    .error (.http 404
      (if s.allow_anonymous_access then "This is a public Tiled server with no login."
       else "This is a single-user Tiled server. To authenticate, use the API key logged at server startup."))
  | some authenticate =>
    match authenticate username password with
    | none => .error (.http 401 "Incorrect username or password")
    | some u =>
      if u = "" then .error (.http 401 "Incorrect username or password")
      else
        match s.secret_keys with
        | [] => .error (.indexError "secret_keys")
        | k0 :: _ =>
          .ok
            { access_token := create_access_token u s.access_token_max_age k0 now,
              expires_in := s.access_token_max_age,
              refresh_token := create_refresh_token u k0 none none now freshSid,
              refresh_token_expires_in := s.refresh_token_max_age,
              token_type := "bearer" }

/-- The 401 "Session has expired. Please re-authenticate." error of `refresh`
(authentication.py lines 216-218 and 222-224). -/
def sessionExpiredErr : Err :=
  .http 401 "Session has expired. Please re-authenticate."

/-- The token-minting tail of `refresh` (authentication.py lines 225-242):
`payload["sub"]`, `payload["sid"]`, `payload["sct"]` and
`settings.secret_keys[0]` are read in that order (missing ones raise), the
next refresh token keeps the session id and the session creation time
(`datetime.fromtimestamp(payload["sct"])` round-trips to the same timestamp),
and a new access token is minted. -/
def refresh_issue (payload : Payload) (s : Settings) (now : Rat)
    (freshSid : Nat) : Except Err TokenResponse :=
  match payload.sub with
  | none => .error (.keyError "sub")
  | some sub =>
    match payload.sid with
    | none => .error (.keyError "sid")
    | some sid =>
      match payload.sct with
      | none => .error (.keyError "sct")
      | some sct =>
        match s.secret_keys with
        | [] => .error (.indexError "secret_keys")
        | k0 :: _ =>
          .ok
            { access_token := create_access_token sub s.access_token_max_age k0 now,
              expires_in := s.access_token_max_age,
              refresh_token :=
                create_refresh_token sub k0 (some sid) (some sct) now freshSid,
              refresh_token_expires_in := s.refresh_token_max_age,
              token_type := "bearer" }

/-- `refresh(refresh_token, settings)` (authentication.py lines 204-242):
decode as type "refresh"; reject with `sessionExpiredErr` when
`now - payload["iat"] > refresh_token_max_age`; when `session_max_age` is
configured, reject likewise when `now - payload["sct"] > session_max_age`;
otherwise mint the next token pair. -/
def refresh (refresh_token : JWT) (s : Settings) (now : Rat) (freshSid : Nat) :
    Except Err TokenResponse :=
  match decode_token refresh_token s.secret_keys "refresh" now with
  | .error e => .error e
  | .ok payload =>
    match payload.iat with
    | none => .error (.keyError "iat")
    | some iat =>
      if now - iat > s.refresh_token_max_age then .error sessionExpiredErr
      else
        match s.session_max_age with
        | some m =>
          match payload.sct with
          | none => .error (.keyError "sct")
          | some sct =>
            if now - sct > m then .error sessionExpiredErr
            else refresh_issue payload s now freshSid
        | none => refresh_issue payload s now freshSid

/-- One step of a refresh chain: call the `refresh` endpoint at time `now`
with fresh UUID integer `freshSid` and keep the returned refresh token. -/
def chainStep (s : Settings) (t : JWT) (step : Rat × Nat) : Except Err JWT :=
  match refresh t s step.1 step.2 with
  | .error e => .error e
  | .ok r => .ok r.refresh_token

/-- Run a chain of successive `refresh` calls, one per `(now, freshSid)`
step, returning every derived refresh token in order. -/
def runChain (s : Settings) : JWT → List (Rat × Nat) → Except Err (List JWT)
  | _, [] => .ok []
  | t, st :: rest =>
    match chainStep s t st with
    | .error e => .error e
    | .ok t2 =>
      match runChain s t2 rest with
      | .error e => .error e
      | .ok ts => .ok (t2 :: ts)

/-- The first present value of a list of optional values (used to state which
of the query / header / cookie channels is consulted). -/
def firstPresent : List (Option String) → Option String
  | [] => none
  | none :: rest => firstPresent rest
  | some v :: _ => some v

lemma decode_token_loop_mem (t : JWT) (now : Rat) (keys : List String)
    (hmem : t.key ∈ keys) :
    decode_token_loop t now keys =
      match t.payload.exp with
      | some e =>
        if e < now then .error (.http 401 "Access token has expired.")
        else .ok t.payload
      | none => .ok t.payload := by
  induction keys with
  | nil => cases hmem
  | cons k rest ih =>
    rcases List.mem_cons.mp hmem with hk | hk
    · simp only [decode_token_loop, jwt_decode, ← hk, if_pos rfl]
      cases t.payload.exp with
      | none => rfl
      | some e =>
        by_cases he : e < now
        · simp [he]
        · simp [he]
    · by_cases hk2 : t.key = k
      · simp only [decode_token_loop, jwt_decode, if_pos hk2]
        cases t.payload.exp with
        | none => rfl
        | some e =>
          by_cases he : e < now
          · simp [he]
          · simp [he]
      · simp only [decode_token_loop, jwt_decode, if_neg hk2]
        exact ih hk

lemma decode_token_loop_not_mem (t : JWT) (now : Rat) (keys : List String)
    (hmem : t.key ∉ keys) :
    decode_token_loop t now keys = .error credentials_exception := by
  induction keys with
  | nil => rfl
  | cons k rest ih =>
    have hk : t.key ≠ k := fun h => hmem (h ▸ List.mem_cons_self k rest)
    simp only [decode_token_loop, jwt_decode, if_neg hk]
    exact ih fun h => hmem (List.mem_cons_of_mem k h)

lemma decode_token_loop_ok (t : JWT) (now : Rat) (keys : List String)
    (p : Payload) (hok : decode_token_loop t now keys = .ok p) :
    p = t.payload ∧ t.key ∈ keys := by
  induction keys with
  | nil => cases hok
  | cons k rest ih =>
    by_cases hk : t.key = k
    · refine ⟨?_, by simp [hk]⟩
      simp only [decode_token_loop, jwt_decode, if_pos hk] at hok
      cases hexp : t.payload.exp with
      | none => rw [hexp] at hok; cases hok; rfl
      | some e =>
        rw [hexp] at hok
        by_cases he : e < now
        · simp [he] at hok
        · simp [he] at hok
          exact hok.symm
    · simp only [decode_token_loop, jwt_decode, if_neg hk] at hok
      rcases ih hok with ⟨h1, h2⟩
      exact ⟨h1, List.mem_cons_of_mem k h2⟩

lemma decode_token_ok (t : JWT) (keys : List String) (e : String) (now : Rat)
    (p : Payload) (hok : decode_token t keys e now = .ok p) :
    p = t.payload ∧ t.key ∈ keys ∧ t.payload.typ = some e := by
  unfold decode_token at hok
  cases hloop : decode_token_loop t now keys with
  | error err => rw [hloop] at hok; cases hok
  | ok q =>
    rw [hloop] at hok
    rcases decode_token_loop_ok t now keys q hloop with ⟨rfl, hmem⟩
    by_cases hty : t.payload.typ = some e
    · simp [hty] at hok
      exact ⟨hok.symm, hmem, hty⟩
    · simp [hty] at hok

/-- C3: `decode_token` tries the keys in list order; a signature-verification
failure on one key moves on to the next, an expiry failure aborts at once
with the 401 "Access token has expired." error no matter which keys remain,
and when every key fails by signature (the signing key is absent from the
list) the result is the 401 "Could not validate credentials" error.  Hence a
token signed with key K (well formed and unexpired, of the expected type)
decodes successfully whenever K appears at any position of the list, and
fails once K is removed. -/
theorem decode_token_key_rotation (t : JWT) (keys : List String) (ety : String)
    (now : Rat) :
    (∀ ex, t.payload.exp = some ex → ex < now → t.key ∈ keys →
      decode_token t keys ety now = .error (.http 401 "Access token has expired.")) ∧
    ((∀ ex, t.payload.exp = some ex → ¬ ex < now) → t.payload.typ = some ety →
      t.key ∈ keys → decode_token t keys ety now = .ok t.payload) ∧
    (t.key ∉ keys → decode_token t keys ety now = .error credentials_exception) := by
  refine ⟨?_, ?_, ?_⟩
  · intro ex hex hlt hmem
    unfold decode_token
    rw [decode_token_loop_mem t now keys hmem, hex]
    simp [hlt]
  · intro hnex hty hmem
    unfold decode_token
    rw [decode_token_loop_mem t now keys hmem]
    cases hex : t.payload.exp with
    | none => simp [hty]
    | some ex => simp [hnex ex hex, hty]
  · intro hmem
    unfold decode_token
    rw [decode_token_loop_not_mem t now keys hmem]

/-- Witness for C3 at concrete inputs: an access token signed with "k1" that
expired at time 10 is rejected as expired at time 20 even though "k1" is
followed by further keys; an unexpired refresh token signed with "k1"
decodes from the middle of the list; the same token fails with the
credentials error once "k1" is removed from the list. -/
theorem decode_token_key_rotation_witness :
    decode_token (create_access_token "alice" 10 "k1" 0) ["k0", "k1", "k2"] "access" 20 =
      .error (.http 401 "Access token has expired.") ∧
    decode_token (create_refresh_token "alice" "k1" none none 5 7) ["k0", "k1", "k2"] "refresh" 20 =
      .ok (create_refresh_token "alice" "k1" none none 5 7).payload ∧
    decode_token (create_refresh_token "alice" "k1" none none 5 7) ["k0", "k2"] "refresh" 20 =
      .error credentials_exception := by
  refine ⟨?_, ?_, ?_⟩
  · exact (decode_token_key_rotation (create_access_token "alice" 10 "k1" 0)
      ["k0", "k1", "k2"] "access" 20).1 10
      (by simp [create_access_token, jwt_encode]) (by norm_num) (by decide)
  · exact (decode_token_key_rotation (create_refresh_token "alice" "k1" none none 5 7)
      ["k0", "k1", "k2"] "refresh" 20).2.1
      (by intro ex hex; simp [create_refresh_token, jwt_encode] at hex)
      (by decide) (by decide)
  · exact (decode_token_key_rotation (create_refresh_token "alice" "k1" none none 5 7)
      ["k0", "k2"] "refresh" 20).2.2 (by decide)

/-- C4: a token that decodes successfully under some key (its signing key is
in the list and its `exp` claim, if any, has not passed) but whose `type`
claim differs from the expected type is rejected with the 401
"Could not validate credentials" error, so a refresh token presented where an
access token is expected, or vice versa, is rejected as invalid
credentials. -/
theorem decode_token_type_confusion (t : JWT) (keys : List String)
    (expected : String) (now : Rat) (hmem : t.key ∈ keys)
    (hexp : ∀ ex, t.payload.exp = some ex → ¬ ex < now)
    (hty : t.payload.typ ≠ some expected) :
    decode_token t keys expected now = .error credentials_exception := by
  unfold decode_token
  rw [decode_token_loop_mem t now keys hmem]
  cases hex : t.payload.exp with
  | none => simp [hty]
  | some ex => simp [hexp ex hex, hty]

/-- Witness for C4 at concrete inputs: a refresh token presented where an
access token is expected, and an unexpired access token presented where a
refresh token is expected, are both rejected with the credentials error. -/
theorem decode_token_type_confusion_witness :
    decode_token (create_refresh_token "alice" "k0" none none 5 7) ["k0"] "access" 20 =
      .error credentials_exception ∧
    decode_token (create_access_token "alice" 100 "k0" 0) ["k0"] "refresh" 20 =
      .error credentials_exception := by
  constructor
  · exact decode_token_type_confusion (create_refresh_token "alice" "k0" none none 5 7)
      ["k0"] "access" 20 (by decide)
      (by intro ex hex; simp [create_refresh_token, jwt_encode] at hex) (by decide)
  · exact decode_token_type_confusion (create_access_token "alice" 100 "k0" 0)
      ["k0"] "refresh" 20 (by decide)
      (by intro ex hex; simp [create_access_token, jwt_encode] at hex; subst hex; norm_num)
      (by decide)

lemma check_api_key_first (q h c : Option String) (s : Settings) :
    check_single_user_api_key q h c s =
      match firstPresent [q, h, c] with
      | none => .ok false
      | some v =>
        if (some v : Option String) = s.single_user_api_key then .ok true
        else .error (.http 401 "Invalid API key") := by
  cases q <;> cases h <;> cases c <;> rfl

/-- C5: `check_single_user_api_key` consults exactly the first non-absent
value among query, header and cookie, in that order: the result is `true`
when that value equals the configured key, the 401 "Invalid API key" error
when it does not (the later channels are never read, so a correct value
there cannot help), and `false` without error when all three channels are
absent. -/
theorem check_single_user_api_key_priority (q h c : Option String) (s : Settings) :
    check_single_user_api_key q h c s =
      match firstPresent [q, h, c] with
      | none => .ok false
      | some v =>
        if (some v : Option String) = s.single_user_api_key then .ok true
        else .error (.http 401 "Invalid API key") :=
  check_api_key_first q h c s

/-- C9 counterexample: the claim says any mismatched value on any channel is
rejected; here the header carries the mismatched value "wrong" while the
query carries the configured key "secret", and the request resolves to the
admin principal instead of being rejected. -/
theorem api_key_some_mismatch_not_rejected :
    get_current_user none (some "secret") (some "wrong") none
      ⟨["k0"], 900, 604800, none, false, some "secret"⟩ none 0 =
      .ok (.admin, [(API_KEY_COOKIE_NAME, some "secret")]) := by
  rfl

/-- C9 (amended): for every protected request in which the first non-absent
API-key channel value, in priority order query, header, cookie, does not
match the configured single-user key, the request is rejected with the 401
"Invalid API key" error regardless of whether an authenticator is
configured and regardless of any bearer token also present. -/
theorem api_key_first_mismatch_rejected (token : Option JWT)
    (q h c : Option String) (s : Settings) (auth : Option Authenticator)
    (now : Rat) (v : String) (hfirst : firstPresent [q, h, c] = some v)
    (hmis : (some v : Option String) ≠ s.single_user_api_key) :
    get_current_user token q h c s auth now = .error (.http 401 "Invalid API key") := by
  have hc : check_single_user_api_key q h c s = .error (.http 401 "Invalid API key") := by
    rw [check_api_key_first q h c s, hfirst]
    exact if_neg hmis
  unfold get_current_user
  rw [hc]

/-- Witness for the amended C9 at concrete inputs: a mismatched query value
is rejected although an authenticator is configured and an otherwise valid
bearer token accompanies the request. -/
theorem api_key_first_mismatch_rejected_witness :
    get_current_user (some (create_access_token "alice" 900 "k0" 0))
      (some "wrong") none none
      ⟨["k0"], 900, 604800, none, true, some "secret"⟩
      (some fun _ _ => none) 100 = .error (.http 401 "Invalid API key") :=
  api_key_first_mismatch_rejected (some (create_access_token "alice" 900 "k0" 0))
    (some "wrong") none none
    ⟨["k0"], 900, 604800, none, true, some "secret"⟩
    (some fun _ _ => none) 100 "wrong" rfl (by decide)

lemma get_current_user_checked (token : Option JWT) (q h c : Option String)
    (s : Settings) (auth : Option Authenticator) (now : Rat) (hasKey : Bool)
    (hchk : check_single_user_api_key q h c s = .ok hasKey) :
    get_current_user token q h c s auth now =
      if auth.isNone ∧ hasKey then
        .ok (.admin,
          if c ≠ s.single_user_api_key then [(API_KEY_COOKIE_NAME, s.single_user_api_key)]
          else [])
      else
        match token with
        | none =>
          if s.allow_anonymous_access then .ok (.public, [])
          else .error (.http 401 "Not authenticated")
        | some tk =>
          match decode_token tk s.secret_keys "access" now with
          | .error e => .error e
          | .ok payload => .ok (.named payload.sub, []) := by
  unfold get_current_user
  rw [hchk]

/-- C7: the principal is resolved by this case split, given the outcome of
the API-key dependency: with no authenticator configured and the API-key
check passed, the principal is the admin sentinel and the API-key cookie is
scheduled exactly when the designated cookie does not hold the configured
key; otherwise with no bearer token the principal is the public sentinel
when anonymous access is enabled and the request fails 401
"Not authenticated" when it is not; otherwise the bearer token is decoded as
an access token and its subject claim is the principal. -/
theorem get_current_user_case_split (token : Option JWT) (q h c : Option String)
    (s : Settings) (auth : Option Authenticator) (now : Rat) (hasKey : Bool)
    (hchk : check_single_user_api_key q h c s = .ok hasKey) :
    (auth = none → hasKey = true →
      get_current_user token q h c s auth now =
        .ok (.admin,
          if c ≠ s.single_user_api_key then [(API_KEY_COOKIE_NAME, s.single_user_api_key)]
          else [])) ∧
    (¬(auth = none ∧ hasKey = true) → token = none →
      get_current_user token q h c s auth now =
        (if s.allow_anonymous_access then .ok (.public, [])
         else .error (.http 401 "Not authenticated"))) ∧
    (∀ tk, ¬(auth = none ∧ hasKey = true) → token = some tk →
      get_current_user token q h c s auth now =
        (match decode_token tk s.secret_keys "access" now with
         | .error e => .error e
         | .ok payload => .ok (.named payload.sub, []))) := by
  rw [get_current_user_checked token q h c s auth now hasKey hchk]
  refine ⟨?_, ?_, ?_⟩
  · rintro rfl rfl
    rw [if_pos ⟨rfl, rfl⟩]
  · intro hno htok
    subst htok
    have hcond : ¬(auth.isNone = true ∧ hasKey = true) :=
      fun hb => hno ⟨Option.isNone_iff_eq_none.mp hb.1, hb.2⟩
    rw [if_neg hcond]
  · intro tk hno htok
    subst htok
    have hcond : ¬(auth.isNone = true ∧ hasKey = true) :=
      fun hb => hno ⟨Option.isNone_iff_eq_none.mp hb.1, hb.2⟩
    rw [if_neg hcond]

/-- Witness for C7 at concrete inputs: with no authenticator, a valid key
arriving via the cookie resolves to admin with no cookie scheduled; with an
authenticator configured and no credentials at all, anonymous access being
enabled resolves to public. -/
theorem get_current_user_case_split_witness :
    get_current_user none none none (some "secret")
      ⟨["k0"], 900, 604800, none, false, some "secret"⟩ none 0 =
      .ok (.admin, []) ∧
    get_current_user none none none none
      ⟨["k0"], 900, 604800, none, true, some "secret"⟩ (some fun _ _ => none) 0 =
      .ok (.public, []) := by
  constructor
  · have h := (get_current_user_case_split none none none (some "secret")
      ⟨["k0"], 900, 604800, none, false, some "secret"⟩ none 0 true rfl).1 rfl rfl
    simpa using h
  · have h := (get_current_user_case_split none none none none
      ⟨["k0"], 900, 604800, none, true, some "secret"⟩ (some fun _ _ => none) 0 false
      rfl).2.1 (by simp) rfl
    simpa using h

/-- C8: every principal resolved by `get_current_user` belongs to the closed
tagged set with exactly the three forms admin, public and named username,
and the sentinel forms are distinct from every named form (and from each
other), so a sentinel is never equal to an ordinary username value. -/
theorem principal_closed_tagged (token : Option JWT) (q h c : Option String)
    (s : Settings) (auth : Option Authenticator) (now : Rat) (p : Principal)
    (cookies : List (String × Option String))
    (hp : get_current_user token q h c s auth now = .ok (p, cookies)) :
    (p = .admin ∨ p = .public ∨ ∃ u, p = .named u) ∧
    (∀ u, Principal.admin ≠ .named u) ∧
    (∀ u, Principal.public ≠ .named u) ∧
    Principal.admin ≠ .public := by
  refine ⟨?_, ?_, ?_, ?_⟩
  · cases p with
    | admin => exact Or.inl rfl
    | public => exact Or.inr (Or.inl rfl)
    | named u => exact Or.inr (Or.inr ⟨u, rfl⟩)
  · intro u hu
    cases hu
  · intro u hu
    cases hu
  · intro hu
    cases hu

/-- Witness for C8 at a concrete resolved request (anonymous access with an
authenticator configured, resolving to the public sentinel). -/
theorem principal_closed_tagged_witness :
    (Principal.public = .admin ∨ Principal.public = .public ∨
      ∃ u, Principal.public = .named u) ∧
    (∀ u, Principal.admin ≠ .named u) ∧
    (∀ u, Principal.public ≠ .named u) ∧
    Principal.admin ≠ .public :=
  principal_closed_tagged none none none none
    ⟨["k0"], 900, 604800, none, true, none⟩ (some fun _ _ => none) 0
    .public [] rfl

/-- C10: when an authenticator is configured, the API-key dependency outcome
(valid key or no key) never yields the admin sentinel: principal resolution
falls through to the bearer-token or anonymous-access path, and the result
is never admin. -/
theorem authenticator_present_ignores_api_key (token : Option JWT)
    (q h c : Option String) (s : Settings) (a : Authenticator) (now : Rat)
    (b : Bool) (hchk : check_single_user_api_key q h c s = .ok b) :
    get_current_user token q h c s (some a) now =
      (match token with
       | none =>
         if s.allow_anonymous_access then .ok (.public, [])
         else .error (.http 401 "Not authenticated")
       | some tk =>
         match decode_token tk s.secret_keys "access" now with
         | .error e => .error e
         | .ok payload => .ok (.named payload.sub, [])) ∧
    ∀ cookies, get_current_user token q h c s (some a) now ≠ .ok (.admin, cookies) := by
  have hmain : get_current_user token q h c s (some a) now =
      (match token with
       | none =>
         if s.allow_anonymous_access then .ok (.public, [])
         else .error (.http 401 "Not authenticated")
       | some tk =>
         match decode_token tk s.secret_keys "access" now with
         | .error e => .error e
         | .ok payload => .ok (.named payload.sub, [])) := by
    rw [get_current_user_checked token q h c s (some a) now b hchk]
    rw [if_neg (fun hb => by simpa using hb.1)]
  refine ⟨hmain, ?_⟩
  intro cookies hEq
  rw [hmain] at hEq
  cases token with
  | none =>
    by_cases ha : s.allow_anonymous_access
    · simp [ha] at hEq
    · simp [ha] at hEq
  | some tk =>
    cases hd : decode_token tk s.secret_keys "access" now with
    | error e => simp [hd] at hEq
    | ok payload => simp [hd] at hEq

/-- Witness for C10 at concrete inputs: a valid single-user API key is
presented via the query channel while an authenticator is configured; the
request resolves to the public sentinel (anonymous access enabled), not to
admin. -/
theorem authenticator_present_ignores_api_key_witness :
    check_single_user_api_key (some "secret") none none
      ⟨["k0"], 900, 604800, none, true, some "secret"⟩ = .ok true ∧
    get_current_user none (some "secret") none none
      ⟨["k0"], 900, 604800, none, true, some "secret"⟩
      (some fun _ _ => none) 0 = .ok (.public, []) := by
  constructor
  · rfl
  · exact (authenticator_present_ignores_api_key none (some "secret") none none
      ⟨["k0"], 900, 604800, none, true, some "secret"⟩ (fun _ _ => none) 0 true rfl).1

/-- C1: for every refresh request whose token decodes (as type "refresh")
and carries the refresh claims, the request fails with the 401
"Session has expired. Please re-authenticate." error as soon as
`now - issued_at` exceeds the refresh max age or, independently, when a
session max age is configured and `now - session_created_at` exceeds it;
when neither bound is exceeded the request succeeds and issues new tokens.
The strict comparisons give the boundary behaviour: `issued_at =
now - refresh_max_age - 1` fails, `issued_at = now - refresh_max_age + 1`
succeeds. -/
theorem refresh_session_age (t : JWT) (s : Settings) (now : Rat)
    (freshSid : Nat) (p : Payload) (iat sct : Rat) (sub : String) (sid : Nat)
    (hdec : decode_token t s.secret_keys "refresh" now = .ok p)
    (hiat : p.iat = some iat) (hsct : p.sct = some sct)
    (hsub : p.sub = some sub) (hsid : p.sid = some sid) :
    ((now - iat > s.refresh_token_max_age ∨
        (∃ m, s.session_max_age = some m ∧ now - sct > m)) →
      refresh t s now freshSid = .error sessionExpiredErr) ∧
    (¬ now - iat > s.refresh_token_max_age →
      (∀ m, s.session_max_age = some m → ¬ now - sct > m) →
      ∃ r, refresh t s now freshSid = .ok r) := by
  obtain ⟨hp, hmem, hty⟩ := decode_token_ok t s.secret_keys "refresh" now p hdec
  subst hp
  obtain ⟨k0, rest, hk⟩ : ∃ k0 rest, s.secret_keys = k0 :: rest := by
    cases hsk : s.secret_keys with
    | nil => rw [hsk] at hmem; cases hmem
    | cons k0 rest => exact ⟨k0, rest, rfl⟩
  constructor
  · intro hbad
    by_cases hr : now - iat > s.refresh_token_max_age
    · simp [refresh, hdec, hiat, hr]
    · rcases hbad with hb | ⟨m, hm, hb⟩
      · exact absurd hb hr
      · simp [refresh, hdec, hiat, hr, hm, hsct, hb]
  · intro hok1 hok2
    have hissue : refresh_issue t.payload s now freshSid = .ok
        { access_token := create_access_token sub s.access_token_max_age k0 now,
          expires_in := s.access_token_max_age,
          refresh_token := create_refresh_token sub k0 (some sid) (some sct) now freshSid,
          refresh_token_expires_in := s.refresh_token_max_age,
          token_type := "bearer" } := by
      simp [refresh_issue, hsub, hsid, hsct, hk]
    cases hsm : s.session_max_age with
    | none =>
      refine ⟨{  access_token := create_access_token sub s.access_token_max_age k0 now,
                 expires_in := s.access_token_max_age,
                 refresh_token := create_refresh_token sub k0 (some sid) (some sct) now freshSid,
                 refresh_token_expires_in := s.refresh_token_max_age,
                 token_type := "bearer" }, ?_⟩
      simp [refresh, hdec, hiat, hok1, hsm, hissue]
    | some m =>
      refine ⟨{  access_token := create_access_token sub s.access_token_max_age k0 now,
                 expires_in := s.access_token_max_age,
                 refresh_token := create_refresh_token sub k0 (some sid) (some sct) now freshSid,
                 refresh_token_expires_in := s.refresh_token_max_age,
                 token_type := "bearer" }, ?_⟩
      simp [refresh, hdec, hiat, hok1, hsm, hsct, hok2 m hsm, hissue]

/-- Witness for C1 at the boundary: with refresh max age 100 and the clock
at 1000, a refresh token issued at 899 (one second beyond the max age) is
rejected as session-expired, and one issued at 901 (one second inside it)
succeeds. -/
theorem refresh_session_age_witness :
    refresh (create_refresh_token "alice" "k0" none none 899 5)
      ⟨["k0"], 900, 100, none, false, none⟩ 1000 7 = .error sessionExpiredErr ∧
    ∃ r, refresh (create_refresh_token "alice" "k0" none none 901 5)
      ⟨["k0"], 900, 100, none, false, none⟩ 1000 7 = .ok r := by
  constructor
  · exact (refresh_session_age (create_refresh_token "alice" "k0" none none 899 5)
      ⟨["k0"], 900, 100, none, false, none⟩ 1000 7
      (create_refresh_token "alice" "k0" none none 899 5).payload
      899 899 "alice" 5 rfl rfl rfl rfl rfl).1 (Or.inl (by norm_num))
  · exact (refresh_session_age (create_refresh_token "alice" "k0" none none 901 5)
      ⟨["k0"], 900, 100, none, false, none⟩ 1000 7
      (create_refresh_token "alice" "k0" none none 901 5).payload
      901 901 "alice" 5 rfl rfl rfl rfl rfl).2 (by norm_num)
      (fun m hm => by cases hm)

/-- C6: login fails 404 with the mode-specific message when no authenticator
is configured; fails 401 "Incorrect username or password" when the
authenticator rejects (returns a falsy username); and on success returns a
new access token expiring at now plus the access max age, a new refresh
token with the fresh session id and session_created_at equal to its
issued_at (both equal to now), both encoded with the first secret key,
together with token type "bearer" and both max ages in seconds. -/
theorem login_spec (u pw : String) (auth : Option Authenticator) (s : Settings)
    (now : Rat) (freshSid : Nat) :
    (auth = none →
      login_for_access_token u pw auth s now freshSid =
        .error (.http 404
          (if s.allow_anonymous_access then "This is a public Tiled server with no login."
           else "This is a single-user Tiled server. To authenticate, use the API key logged at server startup."))) ∧
    (∀ a, auth = some a → (a u pw = none ∨ a u pw = some "") →
      login_for_access_token u pw auth s now freshSid =
        .error (.http 401 "Incorrect username or password")) ∧
    (∀ a un k0 rest, auth = some a → a u pw = some un → un ≠ "" →
      s.secret_keys = k0 :: rest →
      login_for_access_token u pw auth s now freshSid =
        .ok { access_token := create_access_token un s.access_token_max_age k0 now,
              expires_in := s.access_token_max_age,
              refresh_token := create_refresh_token un k0 none none now freshSid,
              refresh_token_expires_in := s.refresh_token_max_age,
              token_type := "bearer" } ∧
      (create_access_token un s.access_token_max_age k0 now).payload.exp =
        some (now + s.access_token_max_age) ∧
      (create_refresh_token un k0 none none now freshSid).payload.sid = some freshSid ∧
      (create_refresh_token un k0 none none now freshSid).payload.sct = some now ∧
      (create_refresh_token un k0 none none now freshSid).payload.iat = some now) := by
  refine ⟨?_, ?_, ?_⟩
  · rintro rfl
    rfl
  · intro a ha hfail
    subst ha
    rcases hfail with hf | hf <;> simp [login_for_access_token, hf]
  · intro a un k0 rest ha hun hne hk
    subst ha
    refine ⟨?_, rfl, rfl, rfl, rfl⟩
    simp [login_for_access_token, hun, hne, hk]

/-- Witness for C6 at concrete inputs: an authenticator accepting
("alice", "pw") produces the full token response signed with "k0". -/
theorem login_spec_witness :
    login_for_access_token "alice" "pw" (some fun _ _ => some "alice")
      ⟨["k0", "k1"], 900, 604800, none, false, none⟩ 50 7 =
      .ok { access_token := create_access_token "alice" 900 "k0" 50,
            expires_in := 900,
            refresh_token := create_refresh_token "alice" "k0" none none 50 7,
            refresh_token_expires_in := 604800,
            token_type := "bearer" } :=
  ((login_spec "alice" "pw" (some fun _ _ => some "alice")
      ⟨["k0", "k1"], 900, 604800, none, false, none⟩ 50 7).2.2
    (fun _ _ => some "alice") "alice" "k0" ["k1"] rfl rfl (by decide) rfl).1

lemma refresh_issue_ok (p : Payload) (s : Settings) (now : Rat) (fresh : Nat)
    (r : TokenResponse) (hr : refresh_issue p s now fresh = .ok r) :
    ∃ sub sid sct k0 rest, p.sub = some sub ∧ p.sid = some sid ∧
      p.sct = some sct ∧ s.secret_keys = k0 :: rest ∧
      r.refresh_token = create_refresh_token sub k0 (some sid) (some sct) now fresh := by
  cases hsub : p.sub with
  | none => simp [refresh_issue, hsub] at hr
  | some sub =>
    cases hsid : p.sid with
    | none => simp [refresh_issue, hsub, hsid] at hr
    | some sid =>
      cases hsct : p.sct with
      | none => simp [refresh_issue, hsub, hsid, hsct] at hr
      | some sct =>
        cases hk : s.secret_keys with
        | nil => simp [refresh_issue, hsub, hsid, hsct, hk] at hr
        | cons k0 rest =>
          simp only [refresh_issue, hsub, hsid, hsct, hk] at hr
          cases hr
          exact ⟨sub, sid, sct, k0, rest, rfl, rfl, rfl, rfl, rfl⟩

lemma refresh_ok_shape (t : JWT) (s : Settings) (now : Rat) (fresh : Nat)
    (r : TokenResponse) (hr : refresh t s now fresh = .ok r) :
    ∃ sub sid sct k0 rest, t.payload.sub = some sub ∧ t.payload.sid = some sid ∧
      t.payload.sct = some sct ∧ s.secret_keys = k0 :: rest ∧
      r.refresh_token = create_refresh_token sub k0 (some sid) (some sct) now fresh := by
  unfold refresh at hr
  cases hd : decode_token t s.secret_keys "refresh" now with
  | error e => rw [hd] at hr; cases hr
  | ok p =>
    rw [hd] at hr
    obtain ⟨rfl, hmem, hty⟩ := decode_token_ok t s.secret_keys "refresh" now p hd
    simp only [] at hr
    cases hiat : t.payload.iat with
    | none => simp only [hiat] at hr; cases hr
    | some iat =>
      simp only [hiat] at hr
      by_cases hgt : now - iat > s.refresh_token_max_age
      · simp only [if_pos hgt] at hr; cases hr
      · simp only [if_neg hgt] at hr
        cases hsm : s.session_max_age with
        | none =>
          simp only [hsm] at hr
          exact refresh_issue_ok t.payload s now fresh r hr
        | some m =>
          simp only [hsm] at hr
          cases hsct : t.payload.sct with
          | none => simp only [hsct] at hr; cases hr
          | some sct =>
            simp only [hsct] at hr
            by_cases hgt2 : now - sct > m
            · simp only [if_pos hgt2] at hr; cases hr
            · simp only [if_neg hgt2] at hr
              rw [← hsct]
              exact refresh_issue_ok t.payload s now fresh r hr

lemma runChain_invariant (s : Settings) (sub : String) (sid0 : Nat) (t0 : Rat)
    (hsid : sid0 ≠ 0) :
    ∀ (steps : List (Rat × Nat)) (t : JWT) (toks : List JWT),
      t.payload.sub = some sub → t.payload.sid = some sid0 →
      t.payload.sct = some t0 → runChain s t steps = .ok toks →
      List.Forall₂ (fun (tok : JWT) (st : Rat × Nat) =>
        tok.payload.sid = some sid0 ∧ tok.payload.sct = some t0 ∧
        tok.payload.sub = some sub ∧ tok.payload.iat = some st.1) toks steps := by
  intro steps
  induction steps with
  | nil =>
    intro t toks _ _ _ hrun
    unfold runChain at hrun
    cases hrun
    exact List.Forall₂.nil
  | cons st rest ih =>
    intro t toks hsub hsid' hsct hrun
    unfold runChain at hrun
    cases hcs : chainStep s t st with
    | error e => rw [hcs] at hrun; cases hrun
    | ok t2 =>
      rw [hcs] at hrun
      unfold chainStep at hcs
      cases hrf : refresh t s st.1 st.2 with
      | error e => rw [hrf] at hcs; cases hcs
      | ok r =>
        rw [hrf] at hcs
        cases hcs
        obtain ⟨sub', sid', sct', k0, krest, hsub', hsid2, hsct2, hk, hrt⟩ :=
          refresh_ok_shape t s st.1 st.2 r hrf
        have e1 : sub' = sub := by
          rw [hsub] at hsub'
          exact (Option.some.inj hsub').symm
        have e2 : sid' = sid0 := by
          rw [hsid'] at hsid2
          exact (Option.some.inj hsid2).symm
        have e3 : sct' = t0 := by
          rw [hsct] at hsct2
          exact (Option.some.inj hsct2).symm
        rw [e1, e2, e3] at hrt
        have hfields : r.refresh_token.payload.sid = some sid0 ∧
            r.refresh_token.payload.sct = some t0 ∧
            r.refresh_token.payload.sub = some sub ∧
            r.refresh_token.payload.iat = some st.1 := by
          rw [hrt]
          refine ⟨?_, rfl, rfl, rfl⟩
          simp [create_refresh_token, jwt_encode, hsid]
        simp only [] at hrun
        cases hrc : runChain s r.refresh_token rest with
        | error e => rw [hrc] at hrun; cases hrun
        | ok ts =>
          rw [hrc] at hrun
          cases hrun
          exact List.Forall₂.cons hfields
            (ih r.refresh_token ts hfields.2.2.1 hfields.1 hfields.2.1 hrc)

/-- C2: along any chain of successive successful refresh calls starting from
a login-issued refresh token (fresh UUID session id `sid0`, which is nonzero
because version-4 UUID integers have their version bits set), every derived
refresh token carries the same session id `sid0`, the same
session_created_at `t0` and the same subject as the initial token, and its
issued_at is the time of the rotation that produced it. -/
theorem refresh_chain_invariant (sub k0 : String) (s : Settings) (t0 : Rat)
    (sid0 : Nat) (steps : List (Rat × Nat)) (toks : List JWT)
    (hsid : sid0 ≠ 0)
    (hrun : runChain s (create_refresh_token sub k0 none none t0 sid0) steps = .ok toks) :
    List.Forall₂ (fun (tok : JWT) (st : Rat × Nat) =>
      tok.payload.sid = some sid0 ∧ tok.payload.sct = some t0 ∧
      tok.payload.sub = some sub ∧ tok.payload.iat = some st.1) toks steps ∧
    (create_refresh_token sub k0 none none t0 sid0).payload.sid = some sid0 ∧
    (create_refresh_token sub k0 none none t0 sid0).payload.sct = some t0 ∧
    (create_refresh_token sub k0 none none t0 sid0).payload.sub = some sub ∧
    (create_refresh_token sub k0 none none t0 sid0).payload.iat = some t0 := by
  refine ⟨?_, rfl, rfl, rfl, rfl⟩
  exact runChain_invariant s sub sid0 t0 hsid steps
    (create_refresh_token sub k0 none none t0 sid0) toks rfl rfl rfl hrun

/-- Witness for C2 at a concrete two-step chain: a login-issued token at time
1000 with session id 5, refreshed at 1050 and 1100 (refresh max age 100),
yields two derived tokens both carrying sid 5, sct 1000 and subject "alice",
with issued_at 1050 and 1100 respectively. -/
theorem refresh_chain_invariant_witness :
    runChain ⟨["k0"], 900, 100, none, false, none⟩
      (create_refresh_token "alice" "k0" none none 1000 5) [(1050, 11), (1100, 12)] =
      .ok [create_refresh_token "alice" "k0" (some 5) (some 1000) 1050 11,
           create_refresh_token "alice" "k0" (some 5) (some 1000) 1100 12] ∧
    List.Forall₂ (fun (tok : JWT) (st : Rat × Nat) =>
      tok.payload.sid = some 5 ∧ tok.payload.sct = some 1000 ∧
      tok.payload.sub = some "alice" ∧ tok.payload.iat = some st.1)
      [create_refresh_token "alice" "k0" (some 5) (some 1000) 1050 11,
       create_refresh_token "alice" "k0" (some 5) (some 1000) 1100 12]
      [(1050, 11), (1100, 12)] := by
  have hrun : runChain ⟨["k0"], 900, 100, none, false, none⟩
      (create_refresh_token "alice" "k0" none none 1000 5) [(1050, 11), (1100, 12)] =
      .ok [create_refresh_token "alice" "k0" (some 5) (some 1000) 1050 11,
           create_refresh_token "alice" "k0" (some 5) (some 1000) 1100 12] := by
    norm_num [runChain, chainStep, refresh, refresh_issue, decode_token,
      decode_token_loop, jwt_decode, create_refresh_token, jwt_encode,
      create_access_token]
  exact ⟨hrun, (refresh_chain_invariant "alice" "k0"
    ⟨["k0"], 900, 100, none, false, none⟩ 1000 5 [(1050, 11), (1100, 12)]
    [create_refresh_token "alice" "k0" (some 5) (some 1000) 1050 11,
     create_refresh_token "alice" "k0" (some 5) (some 1000) 1100 12]
    (by decide) hrun).1⟩
